import Mathlib

/-!
Shallow embedding of the DEEP+ API core (src/app.py) for checking the
natural-language specification of the repository against the code.

The embedding covers, faithful to `src/app.py`:
  * the natural-key upsert `upsert_project_by_number` (lines 528-638),
    including the `field_map` loop that builds the SQL `SET` list from the
    non-null incoming fields;
  * the file-storage layer: `upload_project_file`, `import_file_from_url`,
    `list_project_files`, `delete_project_file`, with the live probe outcome
    (`storage_mode`) and external effects (Drive calls, disk writes, the
    HTTP fetch) supplied as explicit inputs;
  * the storage-mode probe `_drive_env_ready` / `_drive` / `_probe_drive` /
    `storage_mode` (lines 160-218), with the process-global state
    (`_drive_svc`, `_last_drive_probe`) made an explicit `ProbeState`;
  * the connection release helper `close_conn` (lines 135-151).

Database tables are lists of rows; serial ids are modelled by `nextProjectId`
/ `nextFileId` counters; external nondeterminism (uuid hex strings, Drive
responses, fetch outcomes, success of best-effort deletions) is passed in as
parameters.  Python truthiness (`if not pid`, `if drive_id`, `a or b`) is
modelled explicitly.
-/

namespace KfaApi

/-! ### Python-semantics helpers -/

/-- Truthiness of a Python `Optional[str]`: `None` and `""` are falsy. -/
def pyTruthy : Option String → Bool
  | none => false
  | some s => s ≠ ""

/-- Python `a or b` where `a : Optional[str]` and `b : str`. -/
def pyOrS : Option String → String → String
  | none, d => d
  | some s, d => if s = "" then d else s

/-- Python `not pid` on an `Optional[int]`: `None` and `0` are falsy, so
`not pid` is true exactly for `None` and `0`. -/
def pyNotOpt : Option Nat → Bool
  | none => true
  | some n => n == 0

/-- Whether one character list is an initial segment of another (structural,
so that concrete witnesses evaluate inside the kernel). -/
def listStartsWith : List Char → List Char → Bool
  | _, [] => true
  | [], _ :: _ => false
  | c :: cs, p :: ps => (c == p) && listStartsWith cs ps

/-- Python `s.startswith(pre)`. -/
def pyStartsWith (s pre : String) : Bool := listStartsWith s.data pre.data

/-- `os.path.basename` on a POSIX path: the part after the last `/`. -/
def pyBasename (s : String) : String :=
  ⟨(s.data.reverse.takeWhile (fun c => c ≠ '/')).reverse⟩

/-- `os.path.join("uploads", p)`: `p` itself when absolute, otherwise
`"uploads/" ++ p`. -/
def pyJoinUploads (p : String) : String :=
  if pyStartsWith p "/" then p else "uploads/" ++ p

/-- `os.path.splitext(s)[1]`: the dotted extension of the basename, with
leading dots of the basename not counting as extension separators. -/
def pySplitextExt (s : String) : String :=
  let b := (pyBasename s).data
  let core := b.drop (b.takeWhile (fun c => c = '.')).length
  if core.contains '.' then ⟨'.' :: (core.reverse.takeWhile (fun c => c ≠ '.')).reverse⟩
  else ""

/-- Python `s.strip()`: whitespace removed from both ends. -/
def pyStrip (s : String) : String :=
  ⟨((s.data.dropWhile Char.isWhitespace).reverse.dropWhile Char.isWhitespace).reverse⟩

/-- `s.split(";")[0].strip()` as applied to content types in the source. -/
def pyMimeHead (s : String) : String :=
  pyStrip ⟨s.data.takeWhile (fun c => c ≠ ';')⟩

/-! ### Data model: tables and rows -/

/-- One row of the `projects` table (columns per the Neon schema listed at the
top of src/app.py).  Every non-key column is nullable. -/
structure ProjectRow where
  id : Nat
  project_number : String
  project_name : Option String := none
  project_status : Option String := none
  client_id : Option Int := none
  start_year : Option Int := none
  completion_year : Option Int := none
  country : Option String := none
  address : Option String := none
  project_type : Option String := none
  project_context : Option String := none
  project_description : Option String := none
  project_height_m : Option Int := none
  gross_floor_area_m2 : Option Int := none
  number_of_stories : Option Int := none
  residential_units : Option Int := none
  commercial_units : Option Int := none
  bicycle_parking : Option Int := none
  vehicular_parking : Option Int := none
deriving Repr, DecidableEq

/-- One row of the `project_files` table. -/
structure FileRow where
  id : Nat
  project_id : Nat
  filename : String
  content_type : Option String := none
  drive_id : Option String := none
  local_path : Option String := none
deriving Repr, DecidableEq

/-- The relational state: both tables plus the serial-id counters. -/
structure DB where
  projects : List ProjectRow := []
  project_files : List FileRow := []
  nextProjectId : Nat := 1
  nextFileId : Nat := 1
deriving Repr, DecidableEq

/-- The full persistent world: the database, the local `uploads/` directory
(paths paired with abstract byte contents), and the set of object ids living
in the Drive folder. -/
structure World where
  db : DB := {}
  disk : List (String × Nat) := []
  driveFiles : List String := []
deriving Repr, DecidableEq

/-- `_get_project_id` (src/app.py lines 382-385): first row whose
`project_number` matches, projected to its id. -/
def _get_project_id (db : DB) (number : String) : Option Nat :=
  (db.projects.find? (fun r => r.project_number == number)).map (fun r => r.id)

/-! ### The upsert protocol (src/app.py lines 528-638) -/

/-- The `ProjectUpsert` pydantic model: `number` required, everything else
optional (omitted fields arrive as `None`). -/
structure ProjectUpsert where
  number : String
  name : Option String := none
  status : Option String := none
  client_id : Option Int := none
  start_year : Option Int := none
  completion_year : Option Int := none
  country : Option String := none
  address : Option String := none
  project_type : Option String := none
  project_context : Option String := none
  project_description : Option String := none
  project_height_m : Option Int := none
  gross_floor_area_m2 : Option Int := none
  number_of_stories : Option Int := none
  residential_units : Option Int := none
  commercial_units : Option Int := none
  bicycle_parking : Option Int := none
  vehicular_parking : Option Int := none
deriving Repr, DecidableEq

/-- A value bound into the SQL `SET` list (string or integer column). -/
inductive ColVal where
  | s (v : String)
  | i (v : Int)
deriving Repr, DecidableEq

/-- Applying one `db_col=%s` assignment to a row.  Only the well-typed
assignments that `field_map` can produce have an effect. -/
def setCol (r : ProjectRow) (p : String × ColVal) : ProjectRow :=
  match p with
  | ("project_name", .s v) => { r with project_name := some v }
  | ("project_status", .s v) => { r with project_status := some v }
  | ("client_id", .i v) => { r with client_id := some v }
  | ("start_year", .i v) => { r with start_year := some v }
  | ("completion_year", .i v) => { r with completion_year := some v }
  | ("country", .s v) => { r with country := some v }
  | ("address", .s v) => { r with address := some v }
  | ("project_type", .s v) => { r with project_type := some v }
  | ("project_context", .s v) => { r with project_context := some v }
  | ("project_description", .s v) => { r with project_description := some v }
  | ("project_height_m", .i v) => { r with project_height_m := some v }
  | ("gross_floor_area_m2", .i v) => { r with gross_floor_area_m2 := some v }
  | ("number_of_stories", .i v) => { r with number_of_stories := some v }
  | ("residential_units", .i v) => { r with residential_units := some v }
  | ("commercial_units", .i v) => { r with commercial_units := some v }
  | ("bicycle_parking", .i v) => { r with bicycle_parking := some v }
  | ("vehicular_parking", .i v) => { r with vehicular_parking := some v }
  | (_, _) => r

/-- The contribution of one `field_map` entry to the `sets` list: one
assignment when the incoming value is non-null, nothing otherwise. -/
def optEntry (c : String) : Option ColVal → List (String × ColVal)
  | some w => [(c, w)]
  | none => []

/-- The `sets` list built by the loop over `field_map.items()` (lines
560-567), in the dictionary's insertion order. -/
def buildSets (d : ProjectUpsert) : List (String × ColVal) :=
  optEntry "project_name" (d.name.map ColVal.s) ++
  optEntry "project_status" (d.status.map ColVal.s) ++
  optEntry "client_id" (d.client_id.map ColVal.i) ++
  optEntry "start_year" (d.start_year.map ColVal.i) ++
  optEntry "completion_year" (d.completion_year.map ColVal.i) ++
  optEntry "country" (d.country.map ColVal.s) ++
  optEntry "address" (d.address.map ColVal.s) ++
  optEntry "project_type" (d.project_type.map ColVal.s) ++
  optEntry "project_context" (d.project_context.map ColVal.s) ++
  optEntry "project_description" (d.project_description.map ColVal.s) ++
  optEntry "project_height_m" (d.project_height_m.map ColVal.i) ++
  optEntry "gross_floor_area_m2" (d.gross_floor_area_m2.map ColVal.i) ++
  optEntry "number_of_stories" (d.number_of_stories.map ColVal.i) ++
  optEntry "residential_units" (d.residential_units.map ColVal.i) ++
  optEntry "commercial_units" (d.commercial_units.map ColVal.i) ++
  optEntry "bicycle_parking" (d.bicycle_parking.map ColVal.i) ++
  optEntry "vehicular_parking" (d.vehicular_parking.map ColVal.i)

/-- `update projects set {sets} where id=%s` applied to one row: the
assignments are executed left to right. -/
def applySets (r : ProjectRow) (sets : List (String × ColVal)) : ProjectRow :=
  sets.foldl setCol r

/-- The specification's per-column merge: take the incoming value when it is
present (non-null), keep the old one otherwise. -/
def updField {α : Type} : Option α → Option α → Option α
  | some v, _ => some v
  | none, old => old

/-- The per-column statement of what the update writes: each mapped column
merged with `updField`, every other column (including `id` and
`project_number`) untouched. -/
def applyUpdate (r : ProjectRow) (d : ProjectUpsert) : ProjectRow :=
  { r with
    project_name := updField d.name r.project_name
    project_status := updField d.status r.project_status
    client_id := updField d.client_id r.client_id
    start_year := updField d.start_year r.start_year
    completion_year := updField d.completion_year r.completion_year
    country := updField d.country r.country
    address := updField d.address r.address
    project_type := updField d.project_type r.project_type
    project_context := updField d.project_context r.project_context
    project_description := updField d.project_description r.project_description
    project_height_m := updField d.project_height_m r.project_height_m
    gross_floor_area_m2 := updField d.gross_floor_area_m2 r.gross_floor_area_m2
    number_of_stories := updField d.number_of_stories r.number_of_stories
    residential_units := updField d.residential_units r.residential_units
    commercial_units := updField d.commercial_units r.commercial_units
    bicycle_parking := updField d.bicycle_parking r.bicycle_parking
    vehicular_parking := updField d.vehicular_parking r.vehicular_parking }

/-- The row written by the insert branch (lines 580-627): all eighteen
columns are listed in the statement, null incoming values included. -/
def insertRow (pid : Nat) (d : ProjectUpsert) : ProjectRow :=
  { id := pid
    project_number := d.number
    project_name := d.name
    project_status := d.status
    client_id := d.client_id
    start_year := d.start_year
    completion_year := d.completion_year
    country := d.country
    address := d.address
    project_type := d.project_type
    project_context := d.project_context
    project_description := d.project_description
    project_height_m := d.project_height_m
    gross_floor_area_m2 := d.gross_floor_area_m2
    number_of_stories := d.number_of_stories
    residential_units := d.residential_units
    commercial_units := d.commercial_units
    bicycle_parking := d.bicycle_parking
    vehicular_parking := d.vehicular_parking }

/-- Response of the upsert endpoint. -/
inductive UpsertResp where
  | ok (id : Nat) (number : String)
  | err (status : Nat) (code : String)
deriving Repr, DecidableEq

/-- Result of one upsert call: the JSON response, the database afterwards,
and whether a write statement was executed. -/
structure UpsertOut where
  resp : UpsertResp
  db : DB
  didWrite : Bool
deriving Repr, DecidableEq

/-- `upsert_project_by_number` (lines 528-638).  `insertUniqueViolation`
models the insert raising (e.g. a unique-constraint violation from a
concurrent insert of the same number): the generic handler at lines 632-635
rolls back and answers 500 `upsert_failed`. -/
def upsert_project_by_number (db : DB) (d : ProjectUpsert)
    (insertUniqueViolation : Bool) : UpsertOut :=
  match db.projects.find? (fun r => r.project_number == d.number) with
  | some r =>
    if (buildSets d).isEmpty then
      { resp := .ok r.id d.number, db := db, didWrite := false }
    else
      { resp := .ok r.id d.number
        db := { db with projects :=
          db.projects.map (fun x => if x.id == r.id then applySets x (buildSets d) else x) }
        didWrite := true }
  | none =>
    if insertUniqueViolation then
      { resp := .err 500 "upsert_failed", db := db, didWrite := false }
    else
      { resp := .ok db.nextProjectId d.number
        db := { db with
          projects := db.projects ++ [insertRow db.nextProjectId d]
          nextProjectId := db.nextProjectId + 1 }
        didWrite := true }

/-! ### Storage routing: mode and external-effect inputs -/

/-- The two storage modes reported by `storage_mode()`. -/
inductive Mode where
  | drive
  | local
deriving Repr, DecidableEq

/-- Metadata returned by `svc.files().create(...)` in `_drive_upload`
(fields `id, webViewLink, webContentLink`). -/
structure DriveMeta where
  id : String
  webViewLink : Option String := none
  webContentLink : Option String := none
deriving Repr, DecidableEq

/-- Result of `_drive_file_links(file_id)` (the `view`/`download` pair). -/
structure DriveLinks where
  view : Option String := none
  download : Option String := none
deriving Repr, DecidableEq

/-! ### File upload (src/app.py lines 702-777) -/

/-- Response of the upload endpoint.  The drive branch carries the Drive
object id in `fileId`; the local branch has no `fileId` key. -/
inductive UploadResp where
  | ok (file_id : Nat) (filename : String) (storage : String)
      (fileId : Option String) (download : Option String) (preview : Option String)
  | err (status : Nat) (code : String)
deriving Repr, DecidableEq

/-- The `preview` field of an upload response (`none` for error responses). -/
def uploadPreview : UploadResp → Option String
  | .ok _ _ _ _ _ p => p
  | .err _ _ => none

/-- The catalog row written by the drive branches:
`(project_id, filename, content_type, drive_id, local_path=NULL)`. -/
def driveRow (fid pid : Nat) (fname mime driveId : String) : FileRow :=
  { id := fid, project_id := pid, filename := fname,
    content_type := some mime, drive_id := some driveId, local_path := none }

/-- The catalog row written by the local branches:
`(project_id, filename, content_type, drive_id=NULL, local_path)`. -/
def localRow (fid pid : Nat) (fname mime path : String) : FileRow :=
  { id := fid, project_id := pid, filename := fname,
    content_type := some mime, drive_id := none, local_path := some path }

/-- `upload_project_file` (lines 702-777).  `fname` and `mime` are the
already-derived display name and cleaned content type (lines 719-720);
`content` abstracts the uploaded bytes; `uuidHex` is the `uuid.uuid4().hex`
draw; `mode` is the outcome of the `storage_mode()` call at line 722 and
`meta` the Drive response when the drive branch runs. -/
def upload_project_file (w : World) (number fname mime : String) (content : Nat)
    (uuidHex : String) (mode : Mode) (meta : DriveMeta) : UploadResp × World :=
  if pyNotOpt (_get_project_id w.db number) then (.err 404 "project_not_found", w)
  else
    let pid := (_get_project_id w.db number).getD 0
    let fid := w.db.nextFileId
    if mode == Mode.drive then
      let row := driveRow fid pid fname mime meta.id
      let db1 : DB := { w.db with project_files := w.db.project_files ++ [row], nextFileId := fid + 1 }
      (.ok fid fname "drive" (some meta.id) meta.webContentLink meta.webViewLink,
       { w with driveFiles := w.driveFiles ++ [meta.id], db := db1 })
    else
      let ext := if pySplitextExt fname = "" then ".bin" else pySplitextExt fname
      let local_path := pyJoinUploads (pyBasename (number ++ "_" ++ uuidHex ++ ext))
      let row := localRow fid pid fname mime local_path
      let db1 : DB := { w.db with project_files := w.db.project_files ++ [row], nextFileId := fid + 1 }
      (.ok fid fname "local" none
        (some ("/projects/" ++ number ++ "/files/local/" ++ toString fid))
        (if pyStartsWith mime "image/" then some ("/uploads/" ++ pyBasename local_path) else none),
       { w with disk := w.disk ++ [(local_path, content)], db := db1 })

/-! ### File import from URL (src/app.py lines 781-864) -/

/-- The `FileImportBody` pydantic model. -/
structure FileImportBody where
  url : String
  filename : Option String := none
  content_type : Option String := none
deriving Repr, DecidableEq

/-- Outcome of the upstream `sess.get(...)` fetch: a response with its final
status, reason, `Content-Type` header and bytes, or a raised
`requests.RequestException` (connection error, timeout, ...). -/
inductive FetchResult where
  | ok (status : Nat) (reason : String) (contentType : Option String) (content : Nat)
  | exn (msg : String)
deriving Repr, DecidableEq

/-- Response of the import endpoint. -/
inductive ImportResp where
  | ok (file_id : Nat) (fileId : String) (storage : String)
      (view : Option String) (preview : Option String)
  | err (status : Nat) (code : String)
deriving Repr, DecidableEq

/-- The `preview` field of an import response (`none` for error responses). -/
def importPreview : ImportResp → Option String
  | .ok _ _ _ _ p => p
  | .err _ _ => none

/-- The filename computed at line 812:
`data.filename or os.path.basename(urlparse(data.url).path) or f"import-..."`.
`urlBasename` stands for `os.path.basename(urlparse(data.url).path)`. -/
def importFname (body : FileImportBody) (urlBasename uuidHex : String) : String :=
  pyOrS body.filename (pyOrS (some urlBasename) ("import-" ++ uuidHex))

/-- The content type computed at line 813:
`(data.content_type or resp.headers.get("Content-Type") or _infer_mime(fname)).split(";")[0].strip()`.
`inferredMime` stands for the `_infer_mime(fname)` lookup. -/
def importMime (body : FileImportBody) (hdr : Option String) (inferredMime : String) : String :=
  pyMimeHead (pyOrS body.content_type (pyOrS hdr inferredMime))

/-- `import_file_from_url` (lines 781-864).  `resp.raise_for_status()`
raises exactly for statuses ≥ 400 (redirects are already followed), which the
handler at lines 806-810 turns into a 502 `upstream_error`; a raised
`requests.RequestException` is turned into a 502 `import_failed` at lines
856-857.  Both happen before any write. -/
def import_file_from_url (w : World) (number : String) (body : FileImportBody)
    (fetch : FetchResult) (urlBasename inferredMime uuidHex : String)
    (mode : Mode) (meta : DriveMeta) : ImportResp × World :=
  if pyNotOpt (_get_project_id w.db number) then (.err 404 "project_not_found", w)
  else
    let pid := (_get_project_id w.db number).getD 0
    match fetch with
    | .exn _ => (.err 502 "import_failed", w)
    | .ok status _ ctypeHdr content =>
      if 400 ≤ status then (.err 502 "upstream_error", w)
      else
        let fname := importFname body urlBasename uuidHex
        let mime := importMime body ctypeHdr inferredMime
        let fid := w.db.nextFileId
        if mode == Mode.drive then
          let row := driveRow fid pid fname mime meta.id
          let db1 : DB := { w.db with project_files := w.db.project_files ++ [row], nextFileId := fid + 1 }
          (.ok fid meta.id "drive" meta.webViewLink meta.webViewLink,
           { w with driveFiles := w.driveFiles ++ [meta.id], db := db1 })
        else
          let ext := if pySplitextExt fname = "" then ".bin" else pySplitextExt fname
          let local_path := pyJoinUploads (number ++ "_" ++ uuidHex ++ ext)
          let row := localRow fid pid fname mime local_path
          let db1 : DB := { w.db with project_files := w.db.project_files ++ [row], nextFileId := fid + 1 }
          (.ok fid (toString fid) "local" none
            (if pyStartsWith mime "image/" then some ("/uploads/" ++ pyBasename local_path) else none),
           { w with disk := w.disk ++ [(local_path, content)], db := db1 })

/-! ### Listing files (src/app.py lines 868-913) -/

/-- One element of the list response: the selected columns plus the
`download`/`preview` keys added by the loop (a key the loop does not set is
modelled as `none`). -/
structure ListItem where
  id : Nat
  filename : String
  content_type : Option String
  drive_id : Option String
  local_path : Option String
  download : Option String
  preview : Option String
deriving Repr, DecidableEq

/-- The per-row body of the loop at lines 893-908.  `links` models
`_drive_file_links`: `none` is the call raising (handled at lines 901-903). -/
def listItemOf (number : String) (mode : Mode) (links : String → Option DriveLinks)
    (r : FileRow) : ListItem :=
  if (mode == Mode.drive) && pyTruthy r.drive_id then
    match links (r.drive_id.getD "") with
    | some l =>
      { id := r.id, filename := r.filename, content_type := r.content_type,
        drive_id := r.drive_id, local_path := r.local_path,
        download := l.download,
        preview := if pyStartsWith (r.content_type.getD "") "image/" then l.view else none }
    | none =>
      { id := r.id, filename := r.filename, content_type := r.content_type,
        drive_id := r.drive_id, local_path := r.local_path,
        download := none, preview := none }
  else
    { id := r.id, filename := r.filename, content_type := r.content_type,
      drive_id := r.drive_id, local_path := r.local_path,
      download := some ("/projects/" ++ number ++ "/files/local/" ++ toString r.id),
      preview :=
        if pyStartsWith (r.content_type.getD "") "image/" && pyTruthy r.local_path
        then some ("/uploads/" ++ pyBasename (r.local_path.getD "")) else none }

/-- Response of the list endpoint (the code only ever answers with a JSON
list; the error constructor exists for comparison in statements). -/
inductive ListResp where
  | ok (items : List ListItem)
  | err (status : Nat) (code : String)
deriving Repr, DecidableEq

/-- `list_project_files` (lines 868-913): unknown number answers `[]`
directly; otherwise the project's rows are decorated per `listItemOf`, with
`mode` the outcome of the single `storage_mode()` call at line 891.  (The
source orders rows by `created_at desc nulls last, id desc`; the model keeps
insertion order, which no claim depends on.) -/
def list_project_files (db : DB) (number : String) (mode : Mode)
    (links : String → Option DriveLinks) : ListResp :=
  if pyNotOpt (_get_project_id db number) then .ok []
  else
    let pid := (_get_project_id db number).getD 0
    .ok ((db.project_files.filter (fun r => r.project_id == pid)).map
          (listItemOf number mode links))

/-! ### Deleting a file (src/app.py lines 1035-1075) -/

/-- Response of the delete endpoint. -/
inductive DeleteResp where
  | ok (deleted_file_id : Nat)
  | err (status : Nat) (code : String)
deriving Repr, DecidableEq

/-- Result of one delete call, recording whether the Drive byte deletion was
attempted (the `_drive().files().delete(...)` call at line 1059). -/
structure DeleteOut where
  resp : DeleteResp
  world : World
  driveDeleteAttempted : Bool
deriving Repr, DecidableEq

/-- `delete_project_file` (lines 1035-1075).  `mode` is the outcome of the
`storage_mode()` call at line 1057; `driveDeleteOk`/`localRemoveOk` model the
best-effort byte deletions succeeding (failures are logged and ignored). -/
def delete_project_file (w : World) (number : String) (file_id : Nat) (mode : Mode)
    (driveDeleteOk localRemoveOk : Bool) : DeleteOut :=
  if pyNotOpt (_get_project_id w.db number) then
    { resp := .err 404 "project_not_found", world := w, driveDeleteAttempted := false }
  else
    let pid := (_get_project_id w.db number).getD 0
    match w.db.project_files.find? (fun r => r.id == file_id && r.project_id == pid) with
    | none =>
      { resp := .err 404 "file_not_found", world := w, driveDeleteAttempted := false }
    | some r =>
      let attempted := pyTruthy r.drive_id && (mode == Mode.drive)
      let drive1 :=
        if attempted && driveDeleteOk
        then w.driveFiles.filter (fun d => !(d == r.drive_id.getD ""))
        else w.driveFiles
      let localExists := pyTruthy r.local_path && w.disk.any (fun p => p.1 == r.local_path.getD "")
      let disk1 :=
        if localExists && localRemoveOk
        then w.disk.filter (fun p => !(p.1 == r.local_path.getD ""))
        else w.disk
      { resp := .ok file_id
        world :=
          { db := { w.db with project_files :=
              w.db.project_files.filter (fun x => !(x.id == file_id && x.project_id == pid)) }
            disk := disk1
            driveFiles := drive1 }
        driveDeleteAttempted := attempted }

/-! ### The availability probe (src/app.py lines 160-218) -/

/-- The environment read by `_drive_env_ready`: library availability, the two
configuration values, and existence of the credentials file. -/
structure DriveEnvConfig where
  googleAvailable : Bool
  gdriveFolderId : Option String := none
  googleCreds : Option String := none
  credsExists : Bool := false
deriving Repr, DecidableEq

/-- `_drive_env_ready` (lines 164-171). -/
def _drive_env_ready (e : DriveEnvConfig) : Bool × String :=
  if !e.googleAvailable then (false, "google_libs_unavailable")
  else if !(pyTruthy e.gdriveFolderId && pyTruthy e.googleCreds) then (false, "missing_env")
  else if !e.credsExists then (false, "creds_file_missing")
  else (true, "env_ok")

/-- The process-global state the probe reads and writes: whether a Drive
service object is cached in `_drive_svc`, and `_last_drive_probe`. -/
structure ProbeState where
  driveSvc : Bool := false
  lastProbe : Bool × String := (false, "not_checked")
deriving Repr, DecidableEq

/-- The behavior of the external world during one probe: whether building the
service from the credentials file succeeds, and whether the
`files().get(folder)` probe call succeeds. -/
structure DriveNet where
  buildOk : Bool
  buildErr : String := "build_failed"
  execOk : Bool
  execErr : String := "exec_failed"
deriving Repr, DecidableEq

/-- `_drive` (lines 174-191): answer the cached service if present, otherwise
re-check the environment and build (and cache) a fresh one; raises on a
missing environment or a failed build. -/
def _drive (e : DriveEnvConfig) (net : DriveNet) (s : ProbeState) :
    Except String ProbeState :=
  if s.driveSvc then .ok s
  else if !(_drive_env_ready e).1 then
    .error ("Google Drive not configured properly: " ++ (_drive_env_ready e).2)
  else if net.buildOk then .ok { s with driveSvc := true }
  else .error net.buildErr

/-- `_probe_drive` (lines 194-211): environment gate first, then the live
`files().get(folder)` call through `_drive()`, any exception yielding a
failed probe.  Returns the probe result together with the updated globals. -/
def _probe_drive (e : DriveEnvConfig) (net : DriveNet) (s : ProbeState) :
    (Bool × String) × ProbeState :=
  if !(_drive_env_ready e).1 then
    ((false, (_drive_env_ready e).2), { s with lastProbe := (false, (_drive_env_ready e).2) })
  else
    match _drive e net s with
    | .error msg =>
      ((false, "drive_probe_failed: " ++ msg),
       { s with lastProbe := (false, "drive_probe_failed: " ++ msg) })
    | .ok s1 =>
      if net.execOk then ((true, "ok"), { s1 with lastProbe := (true, "ok") })
      else
        ((false, "drive_probe_failed: " ++ net.execErr),
         { s1 with lastProbe := (false, "drive_probe_failed: " ++ net.execErr) })

/-- `storage_mode` (lines 214-218). -/
def storage_mode (e : DriveEnvConfig) (net : DriveNet) (s : ProbeState) :
    String × ProbeState :=
  (((if (_probe_drive e net s).1.1 then "drive" else "local")), (_probe_drive e net s).2)

/-- The mode decision as a function of the environment, the world behavior,
and the one piece of process state it reads: whether a service is cached. -/
def modeOf (e : DriveEnvConfig) (net : DriveNet) (cached : Bool) : Bool :=
  (_drive_env_ready e).1 && (cached || net.buildOk) && net.execOk

/-! ### Connection release (src/app.py lines 135-151) -/

/-- What happens to the connection passed to `close_conn`. -/
inductive ConnAction where
  | returnedToPool
  | closed
  | noop
deriving Repr, DecidableEq

/-- `close_conn(conn)` (lines 135-151): a `None` connection is ignored; with
the pool present the connection is handed to `putconn` (and only closed if
`putconn` itself raises, modelled by `putconnOk = false`); with no pool it is
closed. -/
def close_conn (conn : Option Nat) (poolActive : Bool) (putconnOk : Bool) : ConnAction :=
  match conn with
  | none => .noop
  | some _ =>
    if poolActive then
      if putconnOk then .returnedToPool else .closed
    else .closed

/-- Modelled from the spec: `release(conn, healthy)` of §4.1, the operation
the specification describes and that the source's `close_conn` (which takes
no health report) is claimed to implement — a healthy connection goes back to
the active pool; an unhealthy one, or any connection released while the pool
is not active, is closed outright. -/
def spec_release (conn : Option Nat) (healthy : Bool) (poolActive : Bool) : ConnAction :=
  match conn with
  | none => .noop
  | some _ => if poolActive && healthy then .returnedToPool else .closed

/-! ### The tag invariant (spec §3, §6) -/

/-- Exactly one of `drive_id` / `local_path` is non-null. -/
def exactlyOneTag (r : FileRow) : Prop :=
  (r.drive_id ≠ none ∧ r.local_path = none) ∨ (r.drive_id = none ∧ r.local_path ≠ none)

instance (r : FileRow) : Decidable (exactlyOneTag r) := by
  unfold exactlyOneTag; infer_instance

/-- Every `project_files` row carries exactly one backend tag. -/
def dbTagInv (db : DB) : Prop :=
  ∀ r ∈ db.project_files, exactlyOneTag r

instance (db : DB) : Decidable (dbTagInv db) := by
  unfold dbTagInv; infer_instance

/-! ### Concrete inputs used by counterexamples and witnesses -/

/-- An upsert payload with a new number and no name. -/
def p100NoName : ProjectUpsert := { number := "P-100" }

/-- An upsert payload with a new number and a name. -/
def p100Tower : ProjectUpsert := { number := "P-100", name := some "Tower" }

/-- A one-project database: number `P-1`, name `Old`, status `built`. -/
def dbOneProj : DB :=
  { projects := [{ id := 1, project_number := "P-1", project_name := some "Old",
                   project_status := some "built" }],
    nextProjectId := 2 }

/-- A partial second upsert of `P-1`: sets only the status. -/
def p1StatusOnly : ProjectUpsert := { number := "P-1", status := some "planned" }

/-- A database holding project `P1` with one Drive-tagged image attachment. -/
def dbDriveFile : DB :=
  { projects := [{ id := 1, project_number := "P1" }],
    project_files := [{ id := 7, project_id := 1, filename := "a.png",
                        content_type := some "image/png", drive_id := some "D7",
                        local_path := none }],
    nextProjectId := 2, nextFileId := 8 }

/-- The world around `dbDriveFile`: the object `D7` lives in the Drive folder. -/
def wDriveFile : World := { db := dbDriveFile, driveFiles := ["D7"] }

/-- A link resolver that always succeeds with fixed view/download URLs. -/
def linksConst : String → Option DriveLinks :=
  fun _ => some { view := some "VIEW", download := some "DL" }

/-- A world holding only the project `P1` and nothing else. -/
def wOneProj : World := { db := { projects := [{ id := 1, project_number := "P1" }], nextProjectId := 2 } }

/-- Drive metadata for a concrete uploaded object. -/
def metaDX : DriveMeta := { id := "DX", webViewLink := some "WVL", webContentLink := some "WCL" }

/-- An import body pointing at a concrete URL with no overrides. -/
def bodyPlain : FileImportBody := { url := "http://example.com/a/doc.pdf" }

/-- A fully ready Drive environment. -/
def envReady : DriveEnvConfig :=
  { googleAvailable := true, gdriveFolderId := some "F",
    googleCreds := some "/creds.json", credsExists := true }

/-- World behavior where building a service fails but a probe call through an
already-built service succeeds (e.g. the credentials file was replaced by an
unparsable one after a service had been cached). -/
def netBuildFails : DriveNet := { buildOk := false, execOk := true }

/-! ## Helper lemmas: the `SET`-list fold equals the per-column merge -/

theorem applySets_append (r : ProjectRow) (l1 l2 : List (String × ColVal)) :
    applySets r (l1 ++ l2) = applySets (applySets r l1) l2 := by
  simp [applySets, List.foldl_append]

theorem applySets_name (r : ProjectRow) (v : Option String) :
    applySets r (optEntry "project_name" (v.map ColVal.s)) =
      { r with project_name := updField v r.project_name } := by
  cases v <;> rfl

theorem applySets_status (r : ProjectRow) (v : Option String) :
    applySets r (optEntry "project_status" (v.map ColVal.s)) =
      { r with project_status := updField v r.project_status } := by
  cases v <;> rfl

theorem applySets_clientId (r : ProjectRow) (v : Option Int) :
    applySets r (optEntry "client_id" (v.map ColVal.i)) =
      { r with client_id := updField v r.client_id } := by
  cases v <;> rfl

theorem applySets_startYear (r : ProjectRow) (v : Option Int) :
    applySets r (optEntry "start_year" (v.map ColVal.i)) =
      { r with start_year := updField v r.start_year } := by
  cases v <;> rfl

theorem applySets_completionYear (r : ProjectRow) (v : Option Int) :
    applySets r (optEntry "completion_year" (v.map ColVal.i)) =
      { r with completion_year := updField v r.completion_year } := by
  cases v <;> rfl

theorem applySets_country (r : ProjectRow) (v : Option String) :
    applySets r (optEntry "country" (v.map ColVal.s)) =
      { r with country := updField v r.country } := by
  cases v <;> rfl

theorem applySets_address (r : ProjectRow) (v : Option String) :
    applySets r (optEntry "address" (v.map ColVal.s)) =
      { r with address := updField v r.address } := by
  cases v <;> rfl

theorem applySets_projectType (r : ProjectRow) (v : Option String) :
    applySets r (optEntry "project_type" (v.map ColVal.s)) =
      { r with project_type := updField v r.project_type } := by
  cases v <;> rfl

theorem applySets_projectContext (r : ProjectRow) (v : Option String) :
    applySets r (optEntry "project_context" (v.map ColVal.s)) =
      { r with project_context := updField v r.project_context } := by
  cases v <;> rfl

theorem applySets_projectDescription (r : ProjectRow) (v : Option String) :
    applySets r (optEntry "project_description" (v.map ColVal.s)) =
      { r with project_description := updField v r.project_description } := by
  cases v <;> rfl

theorem applySets_heightM (r : ProjectRow) (v : Option Int) :
    applySets r (optEntry "project_height_m" (v.map ColVal.i)) =
      { r with project_height_m := updField v r.project_height_m } := by
  cases v <;> rfl

theorem applySets_gfa (r : ProjectRow) (v : Option Int) :
    applySets r (optEntry "gross_floor_area_m2" (v.map ColVal.i)) =
      { r with gross_floor_area_m2 := updField v r.gross_floor_area_m2 } := by
  cases v <;> rfl

theorem applySets_stories (r : ProjectRow) (v : Option Int) :
    applySets r (optEntry "number_of_stories" (v.map ColVal.i)) =
      { r with number_of_stories := updField v r.number_of_stories } := by
  cases v <;> rfl

theorem applySets_resUnits (r : ProjectRow) (v : Option Int) :
    applySets r (optEntry "residential_units" (v.map ColVal.i)) =
      { r with residential_units := updField v r.residential_units } := by
  cases v <;> rfl

theorem applySets_commUnits (r : ProjectRow) (v : Option Int) :
    applySets r (optEntry "commercial_units" (v.map ColVal.i)) =
      { r with commercial_units := updField v r.commercial_units } := by
  cases v <;> rfl

theorem applySets_bikes (r : ProjectRow) (v : Option Int) :
    applySets r (optEntry "bicycle_parking" (v.map ColVal.i)) =
      { r with bicycle_parking := updField v r.bicycle_parking } := by
  cases v <;> rfl

theorem applySets_cars (r : ProjectRow) (v : Option Int) :
    applySets r (optEntry "vehicular_parking" (v.map ColVal.i)) =
      { r with vehicular_parking := updField v r.vehicular_parking } := by
  cases v <;> rfl

/-- Executing the built `SET` list is exactly the per-column non-null merge. -/
theorem applySets_buildSets (r : ProjectRow) (d : ProjectUpsert) :
    applySets r (buildSets d) = applyUpdate r d := by
  unfold buildSets
  rw [applySets_append, applySets_append, applySets_append, applySets_append,
      applySets_append, applySets_append, applySets_append, applySets_append,
      applySets_append, applySets_append, applySets_append, applySets_append,
      applySets_append, applySets_append, applySets_append, applySets_append,
      applySets_name, applySets_status, applySets_clientId, applySets_startYear,
      applySets_completionYear, applySets_country, applySets_address,
      applySets_projectType, applySets_projectContext, applySets_projectDescription,
      applySets_heightM, applySets_gfa, applySets_stories, applySets_resUnits,
      applySets_commUnits, applySets_bikes, applySets_cars]
  rfl

theorem optEntry_eq_nil (c : String) (o : Option ColVal) :
    optEntry c o = [] ↔ o = none := by
  cases o <;> simp [optEntry]

/-- The `sets` list is empty exactly when every updatable incoming field is
null. -/
theorem buildSets_eq_nil (d : ProjectUpsert) :
    buildSets d = [] ↔
      d.name = none ∧ d.status = none ∧ d.client_id = none ∧ d.start_year = none ∧
      d.completion_year = none ∧ d.country = none ∧ d.address = none ∧
      d.project_type = none ∧ d.project_context = none ∧ d.project_description = none ∧
      d.project_height_m = none ∧ d.gross_floor_area_m2 = none ∧
      d.number_of_stories = none ∧ d.residential_units = none ∧
      d.commercial_units = none ∧ d.bicycle_parking = none ∧
      d.vehicular_parking = none := by
  simp [buildSets, List.append_eq_nil, optEntry_eq_nil, Option.map_eq_none']

/-- An all-null update leaves every column alone. -/
theorem applyUpdate_of_all_none (r : ProjectRow) (d : ProjectUpsert)
    (h : buildSets d = []) : applyUpdate r d = r := by
  rw [buildSets_eq_nil] at h
  obtain ⟨h1, h2, h3, h4, h5, h6, h7, h8, h9, h10, h11, h12, h13, h14, h15, h16, h17⟩ := h
  simp [applyUpdate, h1, h2, h3, h4, h5, h6, h7, h8, h9, h10, h11, h12, h13, h14, h15, h16, h17,
    updField]

/-! ## C2 — insert with a null name -/

/-- C2 counterexample: `upsertProject` with the fresh number `P-100` and no
`name` does not fail with a ValidationError — it succeeds with the new id and
inserts a row whose `project_name` is null. -/
theorem C2_counterexample :
    (upsert_project_by_number {} p100NoName false).resp = UpsertResp.ok 1 "P-100" ∧
    (upsert_project_by_number {} p100NoName false).db.projects =
      [{ id := 1, project_number := "P-100" }] := by
  exact ⟨rfl, rfl⟩

/-- C2 (amended): an upsert whose number matches no row performs the insert
with no name validation at all: whether `name` is null or not, the row is
inserted (with `project_name := name` as given, null included) and the call
succeeds with the fresh id. -/
theorem C2_insert_never_validates_name (db : DB) (d : ProjectUpsert)
    (hfind : db.projects.find? (fun r => r.project_number == d.number) = none) :
    (upsert_project_by_number db d false).resp = UpsertResp.ok db.nextProjectId d.number ∧
    (upsert_project_by_number db d false).db.projects =
      db.projects ++ [insertRow db.nextProjectId d] ∧
    (insertRow db.nextProjectId d).project_name = d.name := by
  unfold upsert_project_by_number
  rw [hfind]
  exact ⟨rfl, rfl, rfl⟩

/-- C2 witness: the amended theorem applied at the empty database and the
named payload (`number="P-100"`, `name="Tower"`). -/
theorem C2_insert_never_validates_name_witness :
    (upsert_project_by_number {} p100Tower false).resp = UpsertResp.ok 1 "P-100" :=
  (C2_insert_never_validates_name {} p100Tower rfl).1

/-! ## C3 — unique-constraint violation on insert -/

/-- C3 counterexample: when the insert of a fresh number raises (the
unique-violation case of a concurrent insert), the call does not retry as an
update — it answers 500 `upsert_failed` and leaves the database unchanged, so
the second of two concurrent upserts fails rather than both succeeding. -/
theorem C3_counterexample :
    (upsert_project_by_number {} p100Tower true).resp = UpsertResp.err 500 "upsert_failed" ∧
    (upsert_project_by_number {} p100Tower true).db = ({} : DB) := by
  exact ⟨rfl, rfl⟩

/-- C3 (amended): a unique-constraint violation on the insert is not retried
as an update: the generic exception handler rolls the transaction back and
fails the call with 500 `upsert_failed`, writing nothing. -/
theorem C3_unique_violation_not_retried (db : DB) (d : ProjectUpsert)
    (hfind : db.projects.find? (fun r => r.project_number == d.number) = none) :
    (upsert_project_by_number db d true).resp = UpsertResp.err 500 "upsert_failed" ∧
    (upsert_project_by_number db d true).db = db ∧
    (upsert_project_by_number db d true).didWrite = false := by
  unfold upsert_project_by_number
  rw [hfind]
  exact ⟨rfl, rfl, rfl⟩

/-- C3 witness: the amended theorem applied at the empty database. -/
theorem C3_unique_violation_not_retried_witness :
    (upsert_project_by_number {} p100Tower true).db = ({} : DB) :=
  (C3_unique_violation_not_retried {} p100Tower rfl).2.1

/-! ## C4 — partial update writes exactly the non-null fields -/

/-- C4: on an existing row, the update writes exactly the non-null incoming
fields: the matched row is replaced by its per-column merge (incoming value
where non-null, previous value where null, `id`/`project_number` untouched),
other rows are untouched, the call answers the existing id, and an all-null
payload performs no write while still succeeding. -/
theorem C4_update_writes_exactly_nonnull (db : DB) (d : ProjectUpsert) (r : ProjectRow)
    (hfind : db.projects.find? (fun x => x.project_number == d.number) = some r) :
    (upsert_project_by_number db d false).resp = UpsertResp.ok r.id d.number ∧
    (upsert_project_by_number db d false).db.projects =
      db.projects.map (fun x => if x.id == r.id then applyUpdate x d else x) ∧
    (∀ x : ProjectRow,
      (applyUpdate x d).id = x.id ∧
      (applyUpdate x d).project_number = x.project_number ∧
      (applyUpdate x d).project_name = updField d.name x.project_name ∧
      (applyUpdate x d).project_status = updField d.status x.project_status ∧
      (applyUpdate x d).client_id = updField d.client_id x.client_id ∧
      (applyUpdate x d).start_year = updField d.start_year x.start_year ∧
      (applyUpdate x d).completion_year = updField d.completion_year x.completion_year ∧
      (applyUpdate x d).country = updField d.country x.country ∧
      (applyUpdate x d).address = updField d.address x.address ∧
      (applyUpdate x d).project_type = updField d.project_type x.project_type ∧
      (applyUpdate x d).project_context = updField d.project_context x.project_context ∧
      (applyUpdate x d).project_description = updField d.project_description x.project_description ∧
      (applyUpdate x d).project_height_m = updField d.project_height_m x.project_height_m ∧
      (applyUpdate x d).gross_floor_area_m2 = updField d.gross_floor_area_m2 x.gross_floor_area_m2 ∧
      (applyUpdate x d).number_of_stories = updField d.number_of_stories x.number_of_stories ∧
      (applyUpdate x d).residential_units = updField d.residential_units x.residential_units ∧
      (applyUpdate x d).commercial_units = updField d.commercial_units x.commercial_units ∧
      (applyUpdate x d).bicycle_parking = updField d.bicycle_parking x.bicycle_parking ∧
      (applyUpdate x d).vehicular_parking = updField d.vehicular_parking x.vehicular_parking) ∧
    ((d.name = none ∧ d.status = none ∧ d.client_id = none ∧ d.start_year = none ∧
      d.completion_year = none ∧ d.country = none ∧ d.address = none ∧
      d.project_type = none ∧ d.project_context = none ∧ d.project_description = none ∧
      d.project_height_m = none ∧ d.gross_floor_area_m2 = none ∧
      d.number_of_stories = none ∧ d.residential_units = none ∧
      d.commercial_units = none ∧ d.bicycle_parking = none ∧
      d.vehicular_parking = none) →
      (upsert_project_by_number db d false).didWrite = false ∧
      (upsert_project_by_number db d false).db = db) := by
  have hcols : ∀ x : ProjectRow,
      (applyUpdate x d).id = x.id ∧
      (applyUpdate x d).project_number = x.project_number ∧
      (applyUpdate x d).project_name = updField d.name x.project_name ∧
      (applyUpdate x d).project_status = updField d.status x.project_status ∧
      (applyUpdate x d).client_id = updField d.client_id x.client_id ∧
      (applyUpdate x d).start_year = updField d.start_year x.start_year ∧
      (applyUpdate x d).completion_year = updField d.completion_year x.completion_year ∧
      (applyUpdate x d).country = updField d.country x.country ∧
      (applyUpdate x d).address = updField d.address x.address ∧
      (applyUpdate x d).project_type = updField d.project_type x.project_type ∧
      (applyUpdate x d).project_context = updField d.project_context x.project_context ∧
      (applyUpdate x d).project_description = updField d.project_description x.project_description ∧
      (applyUpdate x d).project_height_m = updField d.project_height_m x.project_height_m ∧
      (applyUpdate x d).gross_floor_area_m2 = updField d.gross_floor_area_m2 x.gross_floor_area_m2 ∧
      (applyUpdate x d).number_of_stories = updField d.number_of_stories x.number_of_stories ∧
      (applyUpdate x d).residential_units = updField d.residential_units x.residential_units ∧
      (applyUpdate x d).commercial_units = updField d.commercial_units x.commercial_units ∧
      (applyUpdate x d).bicycle_parking = updField d.bicycle_parking x.bicycle_parking ∧
      (applyUpdate x d).vehicular_parking = updField d.vehicular_parking x.vehicular_parking :=
    fun _ => ⟨rfl, rfl, rfl, rfl, rfl, rfl, rfl, rfl, rfl, rfl, rfl, rfl, rfl, rfl, rfl, rfl,
      rfl, rfl, rfl⟩
  unfold upsert_project_by_number
  rw [hfind]
  simp only [applySets_buildSets]
  cases hb : buildSets d with
  | nil =>
    have hau : ∀ x : ProjectRow, applyUpdate x d = x := fun x => applyUpdate_of_all_none x d hb
    refine ⟨rfl, ?_, hcols, fun _ => ⟨rfl, rfl⟩⟩
    simp [hau]
  | cons p t =>
    refine ⟨rfl, rfl, hcols, fun h17 => ?_⟩
    have : buildSets d = [] := (buildSets_eq_nil d).mpr h17
    rw [hb] at this
    exact absurd this (by simp)

/-- C4 witness: a partial second upsert of `P-1` that sets only the status
answers the existing id. -/
theorem C4_update_writes_exactly_nonnull_witness :
    (upsert_project_by_number dbOneProj p1StatusOnly false).resp = UpsertResp.ok 1 "P-1" :=
  (C4_update_writes_exactly_nonnull dbOneProj p1StatusOnly
    { id := 1, project_number := "P-1", project_name := some "Old",
      project_status := some "built" } rfl).1

/-! ## C1 — link resolution and byte deletion vs the live probe -/

/-- C1 counterexample: a file stored under Drive (`drive_id = "D7"`) does not
continue to resolve via Remote once the probe reports Local — `list` hands it
a local-style download route (even though the Drive link lookup would
succeed), and `delete` does not attempt the remote byte deletion, leaving the
Drive object in place. -/
theorem C1_counterexample :
    list_project_files dbDriveFile "P1" Mode.local linksConst =
      ListResp.ok [{ id := 7, filename := "a.png", content_type := some "image/png",
                     drive_id := some "D7", local_path := none,
                     download := some "/projects/P1/files/local/7", preview := none }] ∧
    (delete_project_file wDriveFile "P1" 7 Mode.local true true).driveDeleteAttempted = false ∧
    (delete_project_file wDriveFile "P1" 7 Mode.local true true).world.driveFiles = ["D7"] := by
  exact ⟨rfl, rfl, rfl⟩

/-- C1 (amended): link resolution and byte deletion are gated on the
conjunction of the stored tag and the current probe outcome, not on the tag
alone: under a Local probe every file — Drive-tagged or not — gets a
local-style download link and no remote byte deletion is attempted; under a
Drive probe a Drive-tagged file resolves through the Drive link lookup and
its remote byte deletion is attempted. -/
theorem C1_resolution_gated_by_probe
    (w : World) (number : String) (links : String → Option DriveLinks)
    (fid : Nat) (dok lok : Bool) (r : FileRow)
    (hp : pyNotOpt (_get_project_id w.db number) = false)
    (hr : w.db.project_files.find?
      (fun x => x.id == fid && x.project_id == (_get_project_id w.db number).getD 0) = some r) :
    (listItemOf number Mode.local links r).download =
      some ("/projects/" ++ number ++ "/files/local/" ++ toString r.id) ∧
    (pyTruthy r.drive_id = true →
      (listItemOf number Mode.drive links r).download =
        (links (r.drive_id.getD "")).bind (fun l => l.download)) ∧
    (delete_project_file w number fid Mode.local dok lok).driveDeleteAttempted = false ∧
    (delete_project_file w number fid Mode.local dok lok).world.driveFiles = w.driveFiles ∧
    (delete_project_file w number fid Mode.drive dok lok).driveDeleteAttempted =
      pyTruthy r.drive_id := by
  refine ⟨rfl, ?_, ?_, ?_, ?_⟩
  · intro h
    cases hl : links (r.drive_id.getD "") <;> simp [listItemOf, h, hl]
  · simp [delete_project_file, hp, hr]
  · simp [delete_project_file, hp, hr]
  · simp [delete_project_file, hp, hr]

/-- C1 witness: the amended theorem applied at the Drive-tagged file `D7`
under a Local probe. -/
theorem C1_resolution_gated_by_probe_witness :
    (delete_project_file wDriveFile "P1" 7 Mode.local true true).driveDeleteAttempted = false :=
  (C1_resolution_gated_by_probe wDriveFile "P1" linksConst 7 true true
    { id := 7, project_id := 1, filename := "a.png", content_type := some "image/png",
      drive_id := some "D7", local_path := none } rfl rfl).2.2.1

/-! ## C10 — listing an unknown project -/

/-- C10: listing files of a number that matches no projects row answers the
empty JSON list as a success, never a 404 — indistinguishable from an
existing project with no attachments, which also answers the empty list. -/
theorem C10_list_unknown_project_is_empty_ok
    (db : DB) (number : String) (mode : Mode) (links : String → Option DriveLinks)
    (h : db.projects.find? (fun r => r.project_number == number) = none) :
    list_project_files db number mode links = ListResp.ok [] ∧
    (∀ db2 : DB, ∀ r : ProjectRow,
      db2.projects.find? (fun x => x.project_number == number) = some r →
      db2.project_files.filter (fun f => f.project_id == r.id) = [] →
      list_project_files db2 number mode links = ListResp.ok []) := by
  constructor
  · unfold list_project_files _get_project_id
    rw [h]
    rfl
  · intro db2 r hr hf
    unfold list_project_files _get_project_id
    rw [hr]
    by_cases hz : r.id = 0
    · simp [pyNotOpt, hz]
    · simp [pyNotOpt, hz, hf]

/-- C10 witness: the theorem applied at the empty database and at a
one-project database with no attachments. -/
theorem C10_list_unknown_project_is_empty_ok_witness :
    list_project_files {} "P-404" Mode.local linksConst = ListResp.ok [] :=
  (C10_list_unknown_project_is_empty_ok {} "P-404" Mode.local linksConst rfl).1

/-! ## C6 — preview population -/

/-- C6 counterexample: a Drive-branch upload of a PDF (content type not
starting with `image/`) still answers a populated preview — the Drive
`webViewLink` — so the preview is not null for a non-image. -/
theorem C6_counterexample :
    (upload_project_file wOneProj "P1" "doc.pdf" "application/pdf" 0 "u1" Mode.drive metaDX).1 =
      UploadResp.ok 1 "doc.pdf" "drive" (some "DX") (some "WCL") (some "WVL") ∧
    pyStartsWith "application/pdf" "image/" = false := by
  exact ⟨rfl, rfl⟩

/-- C6 (amended): the iff-image rule holds for the local branches of upload
and of the URL import and for the list endpoint, but the Drive branches of
both writers populate the preview with the Drive `webViewLink`
unconditionally, regardless of the recorded content type. -/
theorem C6_preview_rules
    (w : World) (number fname mime : String) (content : Nat) (uuidHex : String)
    (meta : DriveMeta) (body : FileImportBody)
    (status : Nat) (reason : String) (ctypeHdr : Option String) (fcontent : Nat)
    (urlBasename inferredMime : String)
    (links : String → Option DriveLinks) (r : FileRow) (l : DriveLinks)
    (hp : pyNotOpt (_get_project_id w.db number) = false)
    (h400 : status < 400) :
    uploadPreview (upload_project_file w number fname mime content uuidHex Mode.drive meta).1 =
      meta.webViewLink ∧
    (uploadPreview (upload_project_file w number fname mime content uuidHex Mode.local meta).1).isSome =
      pyStartsWith mime "image/" ∧
    (importPreview (import_file_from_url w number body (.ok status reason ctypeHdr fcontent)
        urlBasename inferredMime uuidHex Mode.drive meta).1 = meta.webViewLink) ∧
    (importPreview (import_file_from_url w number body (.ok status reason ctypeHdr fcontent)
        urlBasename inferredMime uuidHex Mode.local meta).1).isSome =
      pyStartsWith (importMime body ctypeHdr inferredMime) "image/" ∧
    (pyTruthy r.drive_id = true → links (r.drive_id.getD "") = some l →
      (listItemOf number Mode.drive links r).preview =
        (if pyStartsWith (r.content_type.getD "") "image/" then l.view else none)) ∧
    (pyTruthy r.drive_id = true → links (r.drive_id.getD "") = none →
      (listItemOf number Mode.drive links r).preview = none) ∧
    (listItemOf number Mode.local links r).preview =
      (if pyStartsWith (r.content_type.getD "") "image/" && pyTruthy r.local_path
       then some ("/uploads/" ++ pyBasename (r.local_path.getD "")) else none) := by
  have hnot : ¬ 400 ≤ status := by omega
  refine ⟨?_, ?_, ?_, ?_, ?_, ?_, rfl⟩
  · simp [upload_project_file, hp, uploadPreview]
  · cases hc : pyStartsWith mime "image/" <;>
      simp [upload_project_file, hp, uploadPreview, hc]
  · simp [import_file_from_url, hp, hnot, importPreview]
  · cases hc : pyStartsWith (importMime body ctypeHdr inferredMime) "image/" <;>
      simp [import_file_from_url, hp, hnot, importPreview, hc]
  · intro h hl
    simp [listItemOf, h, hl]
  · intro h hl
    simp [listItemOf, h, hl]

/-- C6 witness: the preview rules applied at a concrete Drive-branch PDF
upload into the one-project world. -/
theorem C6_preview_rules_witness :
    uploadPreview (upload_project_file wOneProj "P1" "doc.pdf" "application/pdf" 0 "u1"
      Mode.drive metaDX).1 = metaDX.webViewLink :=
  (C6_preview_rules wOneProj "P1" "doc.pdf" "application/pdf" 0 "u1" metaDX bodyPlain
    200 "OK" none 0 "doc.pdf" "application/pdf" linksConst
    { id := 7, project_id := 1, filename := "a.png" }
    { view := some "VIEW", download := some "DL" } rfl (by omega)).1

/-! ## C7 — failed upstream fetch writes nothing -/

/-- C7: when the project exists and the upstream fetch either raises a
request exception or comes back with a non-success status (≥ 400,
`raise_for_status`), the import answers a 502 upstream-style error — distinct
from the internal 500 — and the whole world (catalog rows, disk, Drive) is
unchanged. -/
theorem C7_import_failure_writes_nothing
    (w : World) (number : String) (body : FileImportBody)
    (urlBasename inferredMime uuidHex : String) (mode : Mode) (meta : DriveMeta)
    (hp : pyNotOpt (_get_project_id w.db number) = false) :
    (∀ msg : String,
      (import_file_from_url w number body (.exn msg) urlBasename inferredMime uuidHex mode
        meta) = (ImportResp.err 502 "import_failed", w)) ∧
    (∀ status : Nat, ∀ reason : String, ∀ ctypeHdr : Option String, ∀ fcontent : Nat,
      400 ≤ status →
      (import_file_from_url w number body (.ok status reason ctypeHdr fcontent)
          urlBasename inferredMime uuidHex mode meta) =
        (ImportResp.err 502 "upstream_error", w)) := by
  constructor
  · intro msg
    simp [import_file_from_url, hp]
  · intro status reason ctypeHdr fcontent hs
    simp [import_file_from_url, hp, hs]

/-- C7 witness: a timed-out fetch against the one-project world answers 502
`import_failed` and leaves the world untouched. -/
theorem C7_import_failure_writes_nothing_witness :
    (import_file_from_url wOneProj "P1" bodyPlain (.exn "timeout") "doc.pdf"
      "application/pdf" "u1" Mode.local metaDX) = (ImportResp.err 502 "import_failed", wOneProj) :=
  (C7_import_failure_writes_nothing wOneProj "P1" bodyPlain "doc.pdf" "application/pdf" "u1"
    Mode.local metaDX rfl).1 "timeout"

/-! ## C5 — every written row carries exactly one tag, rows never retagged -/

theorem exactlyOneTag_of_append (db : DB) (t : FileRow) (h : dbTagInv db)
    (ht : exactlyOneTag t) : ∀ r ∈ db.project_files ++ [t], exactlyOneTag r := by
  intro r hr
  rcases List.mem_append.mp hr with h1 | h1
  · exact h r h1
  · rw [List.mem_singleton] at h1
    subst h1
    exact ht

/-- C5: uploads and URL imports only ever append a fresh row that carries
exactly one of `drive_id`/`local_path` (Drive branch: `drive_id` only; local
branch: `local_path` only), existing rows surviving verbatim; deletion only
removes rows.  Hence the exactly-one-tag invariant is preserved by every
operation and no operation retags an existing row. -/
theorem C5_exactly_one_tag_invariant
    (w : World) (number fname mime : String) (content : Nat) (uuidHex : String)
    (mode : Mode) (meta : DriveMeta) (body : FileImportBody) (fetch : FetchResult)
    (urlBasename inferredMime : String) (fid : Nat) (dok lok : Bool)
    (hinv : dbTagInv w.db) :
    ((upload_project_file w number fname mime content uuidHex mode meta).2.db.project_files =
        w.db.project_files ∨
      ∃ t, exactlyOneTag t ∧
        (upload_project_file w number fname mime content uuidHex mode meta).2.db.project_files =
          w.db.project_files ++ [t]) ∧
    (∀ r ∈ (upload_project_file w number fname mime content uuidHex mode meta).2.db.project_files,
      exactlyOneTag r) ∧
    (∀ r ∈ w.db.project_files,
      r ∈ (upload_project_file w number fname mime content uuidHex mode meta).2.db.project_files) ∧
    ((import_file_from_url w number body fetch urlBasename inferredMime uuidHex mode meta).2.db.project_files =
        w.db.project_files ∨
      ∃ t, exactlyOneTag t ∧
        (import_file_from_url w number body fetch urlBasename inferredMime uuidHex mode meta).2.db.project_files =
          w.db.project_files ++ [t]) ∧
    (∀ r ∈ (import_file_from_url w number body fetch urlBasename inferredMime uuidHex mode meta).2.db.project_files,
      exactlyOneTag r) ∧
    (∀ r ∈ w.db.project_files,
      r ∈ (import_file_from_url w number body fetch urlBasename inferredMime uuidHex mode meta).2.db.project_files) ∧
    ((delete_project_file w number fid mode dok lok).world.db.project_files.Sublist
      w.db.project_files) ∧
    (∀ r ∈ (delete_project_file w number fid mode dok lok).world.db.project_files,
      exactlyOneTag r) := by
  have htagD : ∀ fid pid : Nat, ∀ a b c : String, exactlyOneTag (driveRow fid pid a b c) := by
    intro fid pid a b c
    left
    exact ⟨by simp [driveRow], rfl⟩
  have htagL : ∀ fid pid : Nat, ∀ a b c : String, exactlyOneTag (localRow fid pid a b c) := by
    intro fid pid a b c
    right
    exact ⟨rfl, by simp [localRow]⟩
  have hu : (upload_project_file w number fname mime content uuidHex mode meta).2.db.project_files =
        w.db.project_files ∨
      ∃ t, exactlyOneTag t ∧
        (upload_project_file w number fname mime content uuidHex mode meta).2.db.project_files =
          w.db.project_files ++ [t] := by
    by_cases hp : pyNotOpt (_get_project_id w.db number) = true
    · left
      simp [upload_project_file, hp]
    · rw [Bool.not_eq_true] at hp
      cases mode
      · exact Or.inr ⟨driveRow w.db.nextFileId ((_get_project_id w.db number).getD 0)
          fname mime meta.id, htagD _ _ _ _ _, by simp [upload_project_file, hp]⟩
      · exact Or.inr ⟨localRow w.db.nextFileId ((_get_project_id w.db number).getD 0)
          fname mime (pyJoinUploads (pyBasename (number ++ "_" ++ uuidHex ++
            (if pySplitextExt fname = "" then ".bin" else pySplitextExt fname)))),
          htagL _ _ _ _ _, by simp [upload_project_file, hp]⟩
  have hi : (import_file_from_url w number body fetch urlBasename inferredMime uuidHex mode meta).2.db.project_files =
        w.db.project_files ∨
      ∃ t, exactlyOneTag t ∧
        (import_file_from_url w number body fetch urlBasename inferredMime uuidHex mode meta).2.db.project_files =
          w.db.project_files ++ [t] := by
    by_cases hp : pyNotOpt (_get_project_id w.db number) = true
    · left
      simp [import_file_from_url, hp]
    · rw [Bool.not_eq_true] at hp
      cases fetch with
      | exn msg =>
        left
        simp [import_file_from_url, hp]
      | ok status reason ctypeHdr fcontent =>
        by_cases hs : 400 ≤ status
        · left
          simp [import_file_from_url, hp, hs]
        · cases mode
          · exact Or.inr ⟨driveRow w.db.nextFileId ((_get_project_id w.db number).getD 0)
              (importFname body urlBasename uuidHex) (importMime body ctypeHdr inferredMime)
              meta.id, htagD _ _ _ _ _, by simp [import_file_from_url, hp, hs]⟩
          · exact Or.inr ⟨localRow w.db.nextFileId ((_get_project_id w.db number).getD 0)
              (importFname body urlBasename uuidHex) (importMime body ctypeHdr inferredMime)
              (pyJoinUploads (number ++ "_" ++ uuidHex ++
                (if pySplitextExt (importFname body urlBasename uuidHex) = "" then ".bin"
                 else pySplitextExt (importFname body urlBasename uuidHex)))),
              htagL _ _ _ _ _, by simp [import_file_from_url, hp, hs]⟩
  have hd : (delete_project_file w number fid mode dok lok).world.db.project_files.Sublist
      w.db.project_files := by
    by_cases hp : pyNotOpt (_get_project_id w.db number) = true
    · simp [delete_project_file, hp]
    · rw [Bool.not_eq_true] at hp
      cases hr : w.db.project_files.find?
          (fun r => r.id == fid && r.project_id == (_get_project_id w.db number).getD 0) with
      | none => simp [delete_project_file, hp, hr]
      | some r =>
        simp only [delete_project_file, hp, hr, Bool.false_eq_true, if_false]
        exact List.filter_sublist _
  have tagOf : ∀ fu : List FileRow,
      (fu = w.db.project_files ∨ ∃ t, exactlyOneTag t ∧ fu = w.db.project_files ++ [t]) →
      ∀ r ∈ fu, exactlyOneTag r := by
    intro fu hsh r hr
    rcases hsh with h1 | ⟨t, ht, h1⟩
    · exact hinv r (h1 ▸ hr)
    · exact exactlyOneTag_of_append w.db t hinv ht r (h1 ▸ hr)
  have memOf : ∀ fu : List FileRow,
      (fu = w.db.project_files ∨ ∃ t, exactlyOneTag t ∧ fu = w.db.project_files ++ [t]) →
      ∀ r ∈ w.db.project_files, r ∈ fu := by
    intro fu hsh r hr
    rcases hsh with h1 | ⟨t, _, h1⟩
    · rw [h1]; exact hr
    · rw [h1]; exact List.mem_append_left _ hr
  exact ⟨hu, tagOf _ hu, memOf _ hu, hi, tagOf _ hi, memOf _ hi, hd,
    fun r hr => hinv r (hd.subset hr)⟩

/-- C5 witness: the invariant theorem applied at the Drive-tagged world, a
local-mode upload, a failed fetch and the deletion of file 7 — deletion only
removes rows. -/
theorem C5_exactly_one_tag_invariant_witness :
    ((delete_project_file wDriveFile "P1" 7 Mode.local true true).world.db.project_files).Sublist
      wDriveFile.db.project_files :=
  (C5_exactly_one_tag_invariant wDriveFile "P1" "b.txt" "text/plain" 0 "u2" Mode.local metaDX
    bodyPlain (.exn "down") "doc.pdf" "application/pdf" 7 true true
    (by decide)).2.2.2.2.2.2.1

/-! ## C8 — connection release -/

/-- C8 counterexample: the source's release helper takes no health report at
all; a connection its caller knows to be unhealthy, released while the pool
is active and `putconn` works, is returned to the pool — whereas the
specification's release closes an unhealthy connection outright. -/
theorem C8_counterexample :
    close_conn (some 1) true true = ConnAction.returnedToPool ∧
    spec_release (some 1) false true = ConnAction.closed ∧
    ConnAction.returnedToPool ≠ ConnAction.closed := by
  refine ⟨rfl, rfl, by decide⟩

/-- C8 (amended): `close_conn` carries no health report.  A `None` connection
is ignored; while the pool is active every released connection is handed back
to the pool (closed only when `putconn` itself raises); with no active pool
the connection is closed outright.  The unhealthy-connection clause of the
spec has no counterpart in the code. -/
theorem C8_close_conn_ignores_health (conn : Nat) (putconnOk : Bool) :
    close_conn none true putconnOk = ConnAction.noop ∧
    close_conn none false putconnOk = ConnAction.noop ∧
    close_conn (some conn) false putconnOk = ConnAction.closed ∧
    close_conn (some conn) true true = ConnAction.returnedToPool ∧
    close_conn (some conn) true false = ConnAction.closed ∧
    (∀ healthy : Bool, spec_release (some conn) healthy true =
        close_conn (some conn) true true → healthy = true) := by
  refine ⟨rfl, rfl, rfl, rfl, rfl, ?_⟩
  intro healthy h
  cases healthy with
  | true => rfl
  | false => exact absurd h (by simp [spec_release, close_conn])

/-! ## C9 — the mode decision and process state -/

/-- The probe's returned flag as a function of the environment, the world
behavior, and the cached-service bit — the only state it reads. -/
theorem storage_mode_fst (e : DriveEnvConfig) (net : DriveNet) (s : ProbeState) :
    (storage_mode e net s).1 = (if modeOf e net s.driveSvc then "drive" else "local") := by
  unfold storage_mode _probe_drive _drive modeOf
  cases hd : s.driveSvc <;> cases he : (_drive_env_ready e).1 <;>
    cases hb : net.buildOk <;> cases hx : net.execOk <;> simp [hd, he, hb, hx]

/-- C9 counterexample: with an identical, fully ready environment and
identical world behavior (service builds fail, probe calls succeed — e.g.
the credentials file was corrupted in place after startup), a process that
cached a Drive service in `_drive_svc` during an earlier call reports
`drive` while a fresh process reports `local`: the decision depends on state
carried between calls. -/
theorem C9_counterexample :
    (storage_mode envReady netBuildFails { driveSvc := true }).1 = "drive" ∧
    (storage_mode envReady netBuildFails {}).1 = "local" := by
  exact ⟨rfl, rfl⟩

/-- C9 (amended): the mode decision reads exactly one piece of process state
carried between calls — whether `_drive_svc` holds a cached service; given
identical environment and world behavior, two calls that agree on that bit
return the same mode (`_last_drive_probe` never influences the decision), and
whenever the service build succeeds the decision is state-independent. -/
theorem C9_mode_depends_only_on_cache
    (e : DriveEnvConfig) (net : DriveNet) (s1 s2 : ProbeState)
    (h : s1.driveSvc = s2.driveSvc) :
    (storage_mode e net s1).1 = (storage_mode e net s2).1 ∧
    (net.buildOk = true → ∀ s3 : ProbeState,
      (storage_mode e net s1).1 = (storage_mode e net s3).1) := by
  constructor
  · rw [storage_mode_fst, storage_mode_fst, h]
  · intro hb s3
    rw [storage_mode_fst, storage_mode_fst]
    unfold modeOf
    rw [hb]
    simp

/-- C9 witness: two empty-cache states with the ready environment agree. -/
theorem C9_mode_depends_only_on_cache_witness :
    (storage_mode envReady netBuildFails { lastProbe := (true, "ok") }).1 =
      (storage_mode envReady netBuildFails {}).1 :=
  (C9_mode_depends_only_on_cache envReady netBuildFails
    { lastProbe := (true, "ok") } {} rfl).1

end KfaApi
